import Mathlib

/-!
Shallow embedding of the Express server in `server.js` of the
rhyl-carboot-sale repository: the status / gallery / hero-background
data-management service.  JavaScript request-body values are modelled by
`JSValue` (so truthiness and `typeof` checks are faithful), the three JSON
record files by fields of `ServerState`, and the two upload directories by
lists of filenames (a directory holds each name at most once; writing an
existing name overwrites it).  Each route handler becomes a function from
a state and request data to a new state and an HTTP-style response.
-/

namespace RhylCarboot

/-- A JavaScript value as it can appear in a parsed JSON request body. -/
inductive JSValue where
  | vNull
  | vUndefined
  | vBool (b : Bool)
  | vNum (n : Int)
  | vStr (s : String)
deriving DecidableEq, Repr

/-- JavaScript truthiness (`if (x)`, `x && y`, `Boolean(x)`). -/
def jsTruthy : JSValue → Bool
  | .vNull => false
  | .vUndefined => false
  | .vBool b => b
  | .vNum n => decide (n ≠ 0)
  | .vStr s => decide (s ≠ "")

/-- `typeof x === 'boolean'`. -/
def typeofIsBoolean : JSValue → Bool
  | .vBool _ => true
  | _ => false

/-- `typeof x === 'string'`. -/
def typeofIsString : JSValue → Bool
  | .vStr _ => true
  | _ => false

/-- `x.length` for the string case; only consulted on string values. -/
def jsStrLength : JSValue → Nat
  | .vStr s => s.length
  | _ => 0

/-- `x || ''`: the value itself when truthy, otherwise the empty string. -/
def jsOrEmptyStr (v : JSValue) : JSValue :=
  if jsTruthy v then v else .vStr ""

/-- The stored status record (`status.json`):
`{ status, notice, lastUpdated }`.  The handler applies `Boolean(status)`,
so `status` is a Lean `Bool`; `notice` is stored as `notice || ''`, kept
as a `JSValue` so that the string-ness of stored notices is a theorem and
not a modelling assumption. -/
structure StatusRecord where
  status : Bool
  notice : JSValue
  lastUpdated : String
deriving DecidableEq, Repr

/-- One gallery entry as appended by the upload handler. -/
structure ImageEntry where
  filename : String
  originalName : String
  uploadedAt : String
  size : Nat
  mimetype : String
deriving DecidableEq, Repr

/-- The stored gallery record (`gallery.json`): `{ images: [...] }`. -/
structure GalleryRecord where
  images : List ImageEntry
deriving DecidableEq, Repr

/-- The stored hero record (`hero-background.json`).  The default record
is `{ filename: null, uploadedAt: null }`; a populated one has all five
fields, so every field is optional. -/
structure HeroRecord where
  filename : Option String
  originalName : Option String
  uploadedAt : Option String
  size : Option Nat
  mimetype : Option String
deriving DecidableEq, Repr

/-- `{ filename: null, uploadedAt: null }`. -/
def defaultHero : HeroRecord := ⟨none, none, none, none, none⟩

/-- The server-visible state: the three JSON records plus the contents of
the two upload directories (each a duplicate-free list of filenames). -/
structure ServerState where
  statusRec : StatusRecord
  gallery : GalleryRecord
  hero : HeroRecord
  galleryDir : List String
  heroDir : List String
deriving DecidableEq, Repr

/-- Writing a file into a directory: creates the name or overwrites the
existing file of that name, so the set of names gains at most one entry. -/
def writeFile (dir : List String) (fn : String) : List String :=
  if fn ∈ dir then dir else fn :: dir

/-- `validateStatusData` middleware: returns the error message of the
first failing check, or `none` when the request passes. -/
def validateStatusData (status notice : JSValue) : Option String :=
  if !typeofIsBoolean status then
    some "Status must be a boolean value"
  else if jsTruthy notice && !typeofIsString notice then
    some "Notice must be a string"
  else if jsTruthy notice && decide (jsStrLength notice > 500) then
    some "Notice must be less than 500 characters"
  else
    none

/-- `validatePassword` middleware condition:
`!(!password || password !== ADMIN_PASSWORD)`. -/
def passwordOk (password : JSValue) (secret : String) : Bool :=
  jsTruthy password && decide (password = .vStr secret)

/-- `str.replace(/[^a-zA-Z0-9.-]/g, '_')` on one character. -/
def sanitizeChar (c : Char) : Char :=
  if c.isAlphanum || c = '.' || c = '-' then c else '_'

/-- `originalname.replace(/[^a-zA-Z0-9.-]/g, '_')`. -/
def sanitize (s : String) : String :=
  String.mk (s.data.map sanitizeChar)

/-- Helper for `extname`: the suffix of the character list starting at
its last `'.'`, when there is one. -/
def extnameAux : List Char → Option (List Char)
  | [] => none
  | c :: cs =>
    match extnameAux cs with
    | some e => some e
    | none => if c = '.' then some (c :: cs) else none

/-- `path.extname`: the suffix from the last `'.'` of the name, the dot
included; empty when there is no dot or the only dot leads the name. -/
def extname (s : String) : String :=
  match s.data with
  | [] => ""
  | _ :: rest =>
    match extnameAux rest with
    | some e => String.mk e
    | none => ""

/-- Decimal digit character for `d < 10`. -/
def digitChar (d : Nat) : Char := Char.ofNat (48 + d)

/-- Fuel-driven digit expansion; `fuel` only bounds the recursion depth
and any `fuel > n` computes all digits of `n`. -/
def natToDigitsAux : Nat → Nat → List Char
  | 0, _ => []
  | fuel + 1, n =>
    if n < 10 then [digitChar n]
    else natToDigitsAux fuel (n / 10) ++ [digitChar (n % 10)]

/-- Decimal digit characters of a natural number, most significant
first (the digits of JavaScript number-to-string coercion). -/
def natToDigits (n : Nat) : List Char := natToDigitsAux (n + 1) n

/-- Decimal rendering of a natural number. -/
def natToString (n : Nat) : String := String.mk (natToDigits n)

/-- `galleryStorage.filename`:
`'gallery-' + Date.now() + '-' + Math.round(Math.random()*1E9) + path.extname(sanitizedName)`,
with the timestamp and the random draw as explicit inputs. -/
def galleryFilename (ts rnd : Nat) (orig : String) : String :=
  "gallery-" ++ natToString ts ++ "-" ++ natToString rnd
    ++ extname (sanitize orig)

/-- `heroStorage.filename`:
`'hero-background' + path.extname(sanitizedName)` — a fixed stem, only
the extension varies with the uploaded name. -/
def heroFilename (orig : String) : String :=
  "hero-background" ++ extname (sanitize orig)

/-- An uploaded multipart file as multer sees it before storage. -/
structure UploadedFile where
  originalname : String
  mimetype : String
  size : Nat
deriving DecidableEq, Repr

/-- `allowedMimes` of `imageFileFilter`. -/
def allowedMimes : List String :=
  ["image/jpeg", "image/jpg", "image/png", "image/gif", "image/webp"]

/-- `allowedExtensions` of `imageFileFilter`. -/
def allowedExtensions : List String :=
  [".jpg", ".jpeg", ".png", ".gif", ".webp"]

/-- `toLowerCase` on a filename extension. -/
def toLowerStr (s : String) : String := String.mk (s.data.map Char.toLower)

/-- `imageFileFilter`: the rejection message of the first failing check
(declared MIME type, then lower-cased extension), or `none` to accept. -/
def imageFileFilterErr (f : UploadedFile) : Option String :=
  if !allowedMimes.contains f.mimetype then
    some "Invalid file type. Only images are allowed."
  else if !allowedExtensions.contains (toLowerStr (extname f.originalname)) then
    some "Invalid file extension. Only .jpg, .jpeg, .png, .gif, .webp are allowed."
  else
    none

/-- HTTP-style responses of the API layer. -/
inductive ApiResp where
  | ok (msg : String)
  | badRequest (msg : String)
  | unauthorized (msg : String)
  | notFoundResp (msg : String)
deriving DecidableEq, Repr

/-- `GET /api/status`: returns the stored status record. -/
def getStatus (s : ServerState) : StatusRecord := s.statusRec

/-- `POST /api/status`: password gate, then `validateStatusData`, then
overwrite `status.json` with
`{ status: Boolean(status), notice: notice || '', lastUpdated: now }`. -/
def setStatus (secret : String) (s : ServerState)
    (password status notice : JSValue) (now : String) :
    ServerState × ApiResp :=
  if !passwordOk password secret then
    (s, .unauthorized "Invalid password")
  else
    match validateStatusData status notice with
    | some msg => (s, .badRequest msg)
    | none =>
      ({ s with statusRec :=
          { status := jsTruthy status
            notice := jsOrEmptyStr notice
            lastUpdated := now } },
       .ok "Status updated successfully")

/-- `GET /api/gallery`. -/
def getGallery (s : ServerState) : GalleryRecord := s.gallery

/-- Multer's per-file loop for `uploadGallery.array('images', 10)`: each
file runs `imageFileFilter`, then the 5 MB size limit, then is written to
the gallery directory under its generated name.  The loop stops at the
first rejection; files already written stay on disk (no rollback). -/
def multerGalleryLoop (dir : List String)
    (files : List (UploadedFile × Nat × Nat))
    (acc : List (UploadedFile × String)) :
    List String × Except String (List (UploadedFile × String)) :=
  match files with
  | [] => (dir, .ok acc.reverse)
  | (f, ts, rnd) :: rest =>
    match imageFileFilterErr f with
    | some msg => (dir, .error msg)
    | none =>
      if f.size > 5 * 1024 * 1024 then
        (dir, .error "File too large. Maximum size is 5MB for gallery, 10MB for hero.")
      else
        let fn := galleryFilename ts rnd f.originalname
        multerGalleryLoop (writeFile dir fn) rest ((f, fn) :: acc)

/-- `POST /api/gallery/upload`: password gate, multer (at most 10 files,
filter and size per file), then append one `ImageEntry` per stored file
to `gallery.json`.  Each file carries the timestamp and random draw used
for its generated name. -/
def uploadGalleryImages (secret : String) (s : ServerState)
    (password : JSValue) (files : List (UploadedFile × Nat × Nat))
    (now : String) : ServerState × ApiResp :=
  if !passwordOk password secret then
    (s, .unauthorized "Invalid password")
  else if files.length > 10 then
    (s, .badRequest "Too many files uploaded.")
  else
    match multerGalleryLoop s.galleryDir files [] with
    | (dir, .error msg) =>
      ({ s with galleryDir := dir }, .badRequest msg)
    | (dir, .ok stored) =>
      if stored.isEmpty then
        ({ s with galleryDir := dir }, .badRequest "No files uploaded")
      else
        let newImages := stored.map fun p =>
          ImageEntry.mk p.2 p.1.originalname now p.1.size p.1.mimetype
        ({ s with
            galleryDir := dir
            gallery := ⟨s.gallery.images ++ newImages⟩ },
         .ok (natToString newImages.length ++ " images uploaded successfully"))

/-- `filename.includes(pat)` on character lists. -/
def includesAux (pat : List Char) : List Char → Bool
  | [] => decide (pat = [])
  | c :: cs => pat.isPrefixOf (c :: cs) || includesAux pat cs

/-- `String.prototype.includes`. -/
def strIncludes (s pat : String) : Bool := includesAux pat.data s.data

/-- `DELETE /api/gallery/:filename`: password gate; reject empty or
traversal-carrying filenames; 404 when no entry matches; otherwise unlink
the physical file (tolerating its absence) and splice the entry out. -/
def deleteGalleryImage (secret : String) (s : ServerState)
    (password : JSValue) (filename : String) : ServerState × ApiResp :=
  if !passwordOk password secret then
    (s, .unauthorized "Invalid password")
  else if filename = "" || strIncludes filename ".." || strIncludes filename "/" then
    (s, .badRequest "Invalid filename")
  else
    match s.gallery.images.findIdx? (fun img => img.filename == filename) with
    | none => (s, .notFoundResp "Image not found")
    | some i =>
      ({ s with
          galleryDir := s.galleryDir.erase filename
          gallery := ⟨s.gallery.images.eraseIdx i⟩ },
       .ok "Image deleted successfully")

/-- `GET /api/hero-background`. -/
def getHero (s : ServerState) : HeroRecord := s.hero

/-- `POST /api/hero-background/upload`: password gate,
`uploadHero.single('heroImage')` (filter then 10 MB limit, fixed-stem
filename), then overwrite `hero-background.json` with the new record. -/
def uploadHeroImage (secret : String) (s : ServerState)
    (password : JSValue) (file : Option UploadedFile) (now : String) :
    ServerState × ApiResp :=
  if !passwordOk password secret then
    (s, .unauthorized "Invalid password")
  else
    match file with
    | none => (s, .badRequest "No file uploaded")
    | some f =>
      match imageFileFilterErr f with
      | some msg => (s, .badRequest msg)
      | none =>
        if f.size > 10 * 1024 * 1024 then
          (s, .badRequest "File too large. Maximum size is 5MB for gallery, 10MB for hero.")
        else
          let fn := heroFilename f.originalname
          ({ s with
              heroDir := writeFile s.heroDir fn
              hero := ⟨some fn, some f.originalname, some now,
                       some f.size, some f.mimetype⟩ },
           .ok "Hero background uploaded successfully")

/-- `DELETE /api/hero-background`: password gate; when the stored
filename is truthy, unlink that file (tolerating its absence); then reset
the record to `{ filename: null, uploadedAt: null }`. -/
def deleteHeroBackground (secret : String) (s : ServerState)
    (password : JSValue) : ServerState × ApiResp :=
  if !passwordOk password secret then
    (s, .unauthorized "Invalid password")
  else
    let dir :=
      match s.hero.filename with
      | some fn => if fn = "" then s.heroDir else s.heroDir.erase fn
      | none => s.heroDir
    ({ s with heroDir := dir, hero := defaultHero },
     .ok "Hero background deleted successfully")

/-- The state created by `initializeDataFiles` and
`createUploadDirectories` on first run: default records, empty upload
directories. -/
def initialState (t0 : String) : ServerState :=
  { statusRec := { status := false, notice := .vStr "", lastUpdated := t0 }
    gallery := ⟨[]⟩
    hero := defaultHero
    galleryDir := []
    heroDir := [] }

/-- A sequence of `POST /api/hero-background/upload` calls, each with its
own file and timestamp. -/
def applyHeroUploads (secret : String) (password : JSValue)
    (s : ServerState) (ups : List (UploadedFile × String)) : ServerState :=
  ups.foldl (fun st p => (uploadHeroImage secret st password (some p.1) p.2).1) s

/-- Numeric value of a list of decimal digit characters; left inverse of
`natToDigits`, used to prove generated gallery names distinct. -/
def digitsVal (cs : List Char) : Nat :=
  cs.foldl (fun a c => a * 10 + (c.toNat - 48)) 0

/-- A character list that is empty or starts with a dot — the shape of
every `extname` result. -/
def dotStarts (e : List Char) : Prop := e = [] ∨ ∃ r, e = '.' :: r

/-- The hero record written by a successful hero upload of file `f` at
time `now`. -/
def heroEntryOf (f : UploadedFile) (now : String) : HeroRecord :=
  ⟨some (heroFilename f.originalname), some f.originalname, some now,
   some f.size, some f.mimetype⟩

end RhylCarboot

namespace RhylCarboot

/-- Claim C1: With the correct password, a valid SetStatus
(`status` a boolean, `notice` a string of at most 500 characters)
succeeds, and GetStatus then returns exactly the submitted status and
notice together with the timestamp taken at the write. -/
theorem c1_set_then_get_status (secret : String) (hsec : secret ≠ "")
    (s : ServerState) (b : Bool) (t : String) (ht : t.length ≤ 500)
    (now : String) :
    (setStatus secret s (.vStr secret) (.vBool b) (.vStr t) now).2
      = .ok "Status updated successfully" ∧
    getStatus (setStatus secret s (.vStr secret) (.vBool b) (.vStr t) now).1
      = { status := b, notice := .vStr t, lastUpdated := now } := by
  have hlen : ¬ t.length > 500 := by omega
  by_cases htt : t = "" <;>
    simp [setStatus, getStatus, passwordOk, jsTruthy, validateStatusData,
      typeofIsBoolean, typeofIsString, jsStrLength, jsOrEmptyStr, hsec,
      hlen, htt]

/-- Claim C1 witness. -/
theorem c1_set_then_get_status_witness :
    (setStatus "pw" (initialState "t0") (.vStr "pw") (.vBool true)
        (.vStr "hello") "t1").2 = .ok "Status updated successfully" ∧
    getStatus (setStatus "pw" (initialState "t0") (.vStr "pw")
        (.vBool true) (.vStr "hello") "t1").1
      = { status := true, notice := .vStr "hello", lastUpdated := "t1" } :=
  c1_set_then_get_status "pw" (by decide) (initialState "t0") true "hello"
    (by decide) "t1"

/-- Claim C4: any SetStatus whose password is not the configured secret —
missing (undefined), falsy, or simply different — is rejected with the
authentication error and the state is unchanged. -/
theorem c4_wrong_password_rejected (secret : String) (s : ServerState)
    (password status notice : JSValue) (now : String)
    (h : password ≠ .vStr secret) :
    setStatus secret s password status notice now
      = (s, .unauthorized "Invalid password") := by
  simp [setStatus, passwordOk, h]

/-- Claim C4 witness (missing password modelled as `undefined`). -/
theorem c4_wrong_password_rejected_witness :
    setStatus "pw" (initialState "t0") .vUndefined (.vBool true)
        (.vStr "x") "t1"
      = (initialState "t0", .unauthorized "Invalid password") :=
  c4_wrong_password_rejected "pw" (initialState "t0") .vUndefined
    (.vBool true) (.vStr "x") "t1" (by decide)

/-- Claim C5: with the correct password and a notice string longer than
500 characters, SetStatus fails with a validation error (a 400 response)
and the state, in particular the stored status record, is unchanged. -/
theorem c5_long_notice_rejected (secret : String) (hsec : secret ≠ "")
    (s : ServerState) (status : JSValue) (t : String)
    (ht : t.length > 500) (now : String) :
    (setStatus secret s (.vStr secret) status (.vStr t) now).1 = s ∧
    ∃ msg, (setStatus secret s (.vStr secret) status (.vStr t) now).2
      = .badRequest msg := by
  have htne : t ≠ "" := by
    intro h; subst h; simp at ht
  have hpw : passwordOk (.vStr secret) secret = true := by
    simp [passwordOk, jsTruthy, hsec]
  have hval : ∃ m, validateStatusData status (.vStr t) = some m := by
    by_cases hb : typeofIsBoolean status = true
    · refine ⟨"Notice must be less than 500 characters", ?_⟩
      simp [validateStatusData, hb, jsTruthy, typeofIsString, jsStrLength,
        htne, ht]
    · refine ⟨"Status must be a boolean value", ?_⟩
      simp [validateStatusData, hb]
  obtain ⟨m, hm⟩ := hval
  refine ⟨?_, m, ?_⟩ <;> simp only [setStatus, hpw, hm, Bool.not_true] <;> simp

/-- Claim C5 witness: a notice of exactly 501 characters. -/
theorem c5_long_notice_rejected_witness :
    (setStatus "pw" (initialState "t0") (.vStr "pw") (.vBool true)
        (.vStr (String.mk (List.replicate 501 'a'))) "t1").1
      = initialState "t0" ∧
    ∃ msg, (setStatus "pw" (initialState "t0") (.vStr "pw") (.vBool true)
        (.vStr (String.mk (List.replicate 501 'a'))) "t1").2
      = .badRequest msg :=
  c5_long_notice_rejected "pw" (by decide) (initialState "t0")
    (.vBool true) (String.mk (List.replicate 501 'a'))
    (by show (List.replicate 501 'a').length > 500
        rw [List.length_replicate]; omega) "t1"

/-- Claim C8: a DeleteGalleryImage call (correct password) whose filename
contains `..` or the path separator `/` is rejected with the 400
"Invalid filename" response before any lookup, and neither the gallery
record nor the directories change. -/
theorem c8_traversal_filename_rejected (secret : String) (hsec : secret ≠ "")
    (s : ServerState) (filename : String)
    (h : strIncludes filename ".." = true ∨ strIncludes filename "/" = true) :
    deleteGalleryImage secret s (.vStr secret) filename
      = (s, .badRequest "Invalid filename") := by
  rcases h with h | h <;>
    simp [deleteGalleryImage, passwordOk, jsTruthy, hsec, h]

/-- Claim C8 witness. -/
theorem c8_traversal_filename_rejected_witness :
    deleteGalleryImage "pw" (initialState "t0") (.vStr "pw") "../status.json"
      = (initialState "t0", .badRequest "Invalid filename") :=
  c8_traversal_filename_rejected "pw" (by decide) (initialState "t0")
    "../status.json" (Or.inl (by decide))

/-- Claim C9: with the correct password and a boolean status, a falsy
notice (null, undefined, 0, false, or the empty string) passes
validation and is stored as the empty string; moreover every successful
SetStatus leaves a record whose notice is a string (and whose status is
a boolean, by the type of `StatusRecord.status`). -/
theorem c9_falsy_notice_normalized (secret : String) (hsec : secret ≠ "")
    (s : ServerState) (b : Bool) (notice : JSValue)
    (hf : jsTruthy notice = false) (now : String) :
    (setStatus secret s (.vStr secret) (.vBool b) notice now
      = ({ s with statusRec :=
            { status := b, notice := .vStr "", lastUpdated := now } },
         .ok "Status updated successfully")) ∧
    ∀ st nt : JSValue,
      (setStatus secret s (.vStr secret) st nt now).2
          = .ok "Status updated successfully" →
      ∃ tstr, (setStatus secret s (.vStr secret) st nt now).1.statusRec.notice
          = .vStr tstr := by
  have hpw : passwordOk (.vStr secret) secret = true := by
    simp [passwordOk, jsTruthy, hsec]
  constructor
  · have hval : validateStatusData (.vBool b) notice = none := by
      simp [validateStatusData, typeofIsBoolean, hf]
    have hb : jsTruthy (.vBool b) = b := rfl
    simp [setStatus, hpw, hval, jsOrEmptyStr, hf, hb]
  · intro st nt h
    cases st <;> cases nt <;>
      simp_all [setStatus, passwordOk, jsTruthy, validateStatusData,
        typeofIsBoolean, typeofIsString, jsStrLength, jsOrEmptyStr, hsec] <;>
      split_ifs <;> simp_all

/-- Claim C9 witness (notice `null`). -/
theorem c9_falsy_notice_normalized_witness :
    (setStatus "pw" (initialState "t0") (.vStr "pw") (.vBool true)
        .vNull "t1"
      = ({ initialState "t0" with statusRec :=
            { status := true, notice := .vStr "", lastUpdated := "t1" } },
         .ok "Status updated successfully")) ∧
    ∀ st nt : JSValue,
      (setStatus "pw" (initialState "t0") (.vStr "pw") st nt "t1").2
          = .ok "Status updated successfully" →
      ∃ tstr, (setStatus "pw" (initialState "t0") (.vStr "pw") st nt
          "t1").1.statusRec.notice = .vStr tstr :=
  c9_falsy_notice_normalized "pw" (by decide) (initialState "t0") true
    .vNull (by decide) "t1"

/-- Claim C10: with the correct password, DeleteHero succeeds from every
state (also when the stored filename is already null or the physical
file is absent), always leaves the hero record equal to the default
`{ filename: null, uploadedAt: null }`, and running it twice yields the
same state — hence the same record — as running it once. -/
theorem c10_delete_hero_idempotent (secret : String) (hsec : secret ≠ "")
    (s : ServerState) :
    (deleteHeroBackground secret s (.vStr secret)).2
      = .ok "Hero background deleted successfully" ∧
    (deleteHeroBackground secret s (.vStr secret)).1.hero = defaultHero ∧
    (deleteHeroBackground secret
        (deleteHeroBackground secret s (.vStr secret)).1 (.vStr secret)).1
      = (deleteHeroBackground secret s (.vStr secret)).1 := by
  refine ⟨?_, ?_, ?_⟩ <;>
    simp [deleteHeroBackground, passwordOk, jsTruthy, hsec, defaultHero]

/-- Claim C10 witness: state whose hero record names a file that the
hero directory does not contain. -/
theorem c10_delete_hero_idempotent_witness :
    (deleteHeroBackground "pw"
        { initialState "t0" with hero :=
            ⟨some "hero-background.png", some "a.png", some "t1",
             some 10, some "image/png"⟩ } (.vStr "pw")).2
      = .ok "Hero background deleted successfully" ∧
    (deleteHeroBackground "pw"
        { initialState "t0" with hero :=
            ⟨some "hero-background.png", some "a.png", some "t1",
             some 10, some "image/png"⟩ } (.vStr "pw")).1.hero
      = defaultHero ∧
    (deleteHeroBackground "pw"
        (deleteHeroBackground "pw"
          { initialState "t0" with hero :=
              ⟨some "hero-background.png", some "a.png", some "t1",
               some 10, some "image/png"⟩ } (.vStr "pw")).1 (.vStr "pw")).1
      = (deleteHeroBackground "pw"
          { initialState "t0" with hero :=
              ⟨some "hero-background.png", some "a.png", some "t1",
               some 10, some "image/png"⟩ } (.vStr "pw")).1 :=
  c10_delete_hero_idempotent "pw" (by decide)
    { initialState "t0" with hero :=
        ⟨some "hero-background.png", some "a.png", some "t1",
         some 10, some "image/png"⟩ }

end RhylCarboot

namespace RhylCarboot

/-- Claim C7: a DeleteGalleryImage call with the correct password and a
well-formed filename (nonempty, no `..`, no `/`) that matches no stored
`ImageEntry` answers the 404 "Image not found" response and leaves the
state — gallery record and directories — unchanged. -/
theorem c7_delete_absent_not_found (secret : String) (hsec : secret ≠ "")
    (s : ServerState) (filename : String) (hne : filename ≠ "")
    (h1 : strIncludes filename ".." = false)
    (h2 : strIncludes filename "/" = false)
    (habs : ∀ e ∈ s.gallery.images, e.filename ≠ filename) :
    deleteGalleryImage secret s (.vStr secret) filename
      = (s, .notFoundResp "Image not found") := by
  have hidx : s.gallery.images.findIdx?
      (fun img => img.filename == filename) = none := by
    rw [List.findIdx?_eq_none_iff]
    intro e he
    simpa using habs e he
  simp [deleteGalleryImage, passwordOk, jsTruthy, hsec, hne, h1, h2, hidx]

/-- Claim C7 witness: one stored image, a different filename requested. -/
theorem c7_delete_absent_not_found_witness :
    deleteGalleryImage "pw"
        { initialState "t0" with gallery :=
            ⟨[⟨"gallery-1-5.jpg", "a.jpg", "t1", 10, "image/jpeg"⟩]⟩ }
        (.vStr "pw") "gallery-2-6.png"
      = ({ initialState "t0" with gallery :=
            ⟨[⟨"gallery-1-5.jpg", "a.jpg", "t1", 10, "image/jpeg"⟩]⟩ },
         .notFoundResp "Image not found") :=
  c7_delete_absent_not_found "pw" (by decide)
    { initialState "t0" with gallery :=
        ⟨[⟨"gallery-1-5.jpg", "a.jpg", "t1", 10, "image/jpeg"⟩]⟩ }
    "gallery-2-6.png" (by decide) (by decide) (by decide) (by decide)

/-- Claim C6: a single-file gallery upload (correct password) whose
declared MIME type is not an allowed image type is rejected with the 400
"Invalid file type" response, no file is written to the gallery
directory, and the gallery record is unchanged. -/
theorem c6_bad_mime_upload_rejected (secret : String) (hsec : secret ≠ "")
    (s : ServerState) (f : UploadedFile) (ts rnd : Nat) (now : String)
    (hm : f.mimetype ∉ allowedMimes) :
    uploadGalleryImages secret s (.vStr secret) [(f, ts, rnd)] now
      = (s, .badRequest "Invalid file type. Only images are allowed.") := by
  have hfilter : imageFileFilterErr f
      = some "Invalid file type. Only images are allowed." := by
    simp [imageFileFilterErr, hm]
  simp [uploadGalleryImages, passwordOk, jsTruthy, hsec,
    multerGalleryLoop, hfilter]

/-- Claim C6 witness: an `application/pdf` upload. -/
theorem c6_bad_mime_upload_rejected_witness :
    uploadGalleryImages "pw" (initialState "t0") (.vStr "pw")
        [(⟨"doc.jpg", "application/pdf", 10⟩, 1, 5)] "t1"
      = (initialState "t0",
         .badRequest "Invalid file type. Only images are allowed.") :=
  c6_bad_mime_upload_rejected "pw" (by decide) (initialState "t0")
    ⟨"doc.jpg", "application/pdf", 10⟩ 1 5 "t1" (by decide)

end RhylCarboot

namespace RhylCarboot

lemma digitChar_toNat (d : Nat) (h : d < 10) : (digitChar d).toNat = 48 + d := by
  interval_cases d <;> decide

lemma digitChar_isDigit (d : Nat) (h : d < 10) : (digitChar d).isDigit = true := by
  interval_cases d <;> decide

lemma natToDigitsAux_isDigit (fuel : Nat) :
    ∀ n, n < fuel → ∀ c ∈ natToDigitsAux fuel n, c.isDigit = true := by
  induction fuel with
  | zero => intro n hn; omega
  | succ fuel ih =>
    intro n hn c hc
    rw [natToDigitsAux] at hc
    by_cases h10 : n < 10
    · simp [h10] at hc
      subst hc
      exact digitChar_isDigit n h10
    · simp [h10, List.mem_append] at hc
      rcases hc with hc | hc
      · exact ih (n / 10) (by omega) c hc
      · subst hc
        exact digitChar_isDigit (n % 10) (by omega)

lemma natToDigitsAux_val (fuel : Nat) :
    ∀ n, n < fuel → digitsVal (natToDigitsAux fuel n) = n := by
  induction fuel with
  | zero => intro n hn; omega
  | succ fuel ih =>
    intro n hn
    rw [natToDigitsAux]
    by_cases h10 : n < 10
    · simp [h10, digitsVal, digitChar_toNat n h10]
    · have hrec := ih (n / 10) (by omega)
      simp [h10, digitsVal, List.foldl_append] at hrec ⊢
      rw [hrec, digitChar_toNat (n % 10) (by omega)]
      omega

lemma natToDigits_isDigit (n : Nat) : ∀ c ∈ natToDigits n, c.isDigit = true :=
  natToDigitsAux_isDigit (n + 1) n (by omega)

lemma natToDigits_val (n : Nat) : digitsVal (natToDigits n) = n :=
  natToDigitsAux_val (n + 1) n (by omega)

lemma natToDigits_inj {m n : Nat} (h : natToDigits m = natToDigits n) :
    m = n := by
  have := natToDigits_val m
  rw [h, natToDigits_val] at this
  omega

/-- Splitting a digits-dash-tail concatenation: the dash cannot occur in
either digit block, so the blocks and tails agree separately. -/
lemma digits_dash_split (d1 : List Char) :
    ∀ d2 t1 t2 : List Char, (∀ c ∈ d1, c.isDigit = true) →
    (∀ c ∈ d2, c.isDigit = true) →
    d1 ++ '-' :: t1 = d2 ++ '-' :: t2 → d1 = d2 ∧ t1 = t2 := by
  induction d1 with
  | nil =>
    intro d2 t1 t2 _ h2 h
    cases d2 with
    | nil => simpa using h
    | cons c cs =>
      exfalso
      have hc : c = '-' := by
        have := congrArg (fun l => l.head?) h
        simpa using this.symm
      have := h2 c (by simp)
      rw [hc] at this
      simp at this
  | cons c cs ih =>
    intro d2 t1 t2 h1 h2 h
    cases d2 with
    | nil =>
      exfalso
      have hc : c = '-' := by
        have := congrArg (fun l => l.head?) h
        simpa using this
      have := h1 c (by simp)
      rw [hc] at this
      simp at this
    | cons c2 cs2 =>
      simp only [List.cons_append, List.cons.injEq] at h
      obtain ⟨hc, hrest⟩ := h
      obtain ⟨hd, ht⟩ := ih cs2 t1 t2 (fun x hx => h1 x (by simp [hx]))
        (fun x hx => h2 x (by simp [hx])) hrest
      exact ⟨by simp [hc, hd], ht⟩

/-- Splitting a digits-extension concatenation: an extension is empty or
dot-led, so it cannot swallow or emit digits. -/
lemma digits_dot_split (r1 : List Char) :
    ∀ r2 e1 e2 : List Char, (∀ c ∈ r1, c.isDigit = true) →
    (∀ c ∈ r2, c.isDigit = true) → dotStarts e1 → dotStarts e2 →
    r1 ++ e1 = r2 ++ e2 → r1 = r2 := by
  induction r1 with
  | nil =>
    intro r2 e1 e2 _ h2 he1 _ h
    cases r2 with
    | nil => rfl
    | cons c cs =>
      exfalso
      have hdig := h2 c (by simp)
      rcases he1 with he1 | ⟨r, he1⟩ <;> subst he1 <;> simp at h
      obtain ⟨hc, -⟩ := h
      rw [← hc] at hdig
      simp at hdig
  | cons c cs ih =>
    intro r2 e1 e2 h1 h2 he1 he2 h
    cases r2 with
    | nil =>
      exfalso
      have hdig := h1 c (by simp)
      rcases he2 with he2 | ⟨r, he2⟩ <;> subst he2 <;> simp at h
      obtain ⟨hc, -⟩ := h
      rw [hc] at hdig
      simp at hdig
    | cons c2 cs2 =>
      simp only [List.cons_append, List.cons.injEq] at h
      obtain ⟨hc, hrest⟩ := h
      have := ih cs2 e1 e2 (fun x hx => h1 x (by simp [hx]))
        (fun x hx => h2 x (by simp [hx])) he1 he2 hrest
      simp [hc, this]

lemma extnameAux_dot : ∀ cs e, extnameAux cs = some e → ∃ r, e = '.' :: r := by
  intro cs
  induction cs with
  | nil => intro e h; simp [extnameAux] at h
  | cons c cs ih =>
    intro e h
    rw [extnameAux] at h
    cases hrec : extnameAux cs with
    | some e2 =>
      rw [hrec] at h
      simp at h
      subst h
      exact ih e2 hrec
    | none =>
      rw [hrec] at h
      by_cases hdot : c = '.'
      · simp [hdot] at h
        exact ⟨cs, h.symm⟩
      · simp [hdot] at h

lemma extname_dotStarts (s : String) : dotStarts (extname s).data := by
  unfold extname
  cases hdata : s.data with
  | nil => left; rfl
  | cons c rest =>
    cases hrec : extnameAux rest with
    | some e =>
      obtain ⟨r, hr⟩ := extnameAux_dot rest e hrec
      right
      exact ⟨r, by simp [hrec, hr]⟩
    | none =>
      left
      simp [hrec]

lemma data_mk (l : List Char) : (String.mk l).data = l := rfl

/-- The generated gallery filename determines the timestamp and the
random draw: two generated names are equal only when both coincide. -/
lemma galleryFilename_inj (ts1 rnd1 : Nat) (o1 : String) (ts2 rnd2 : Nat)
    (o2 : String)
    (h : galleryFilename ts1 rnd1 o1 = galleryFilename ts2 rnd2 o2) :
    ts1 = ts2 ∧ rnd1 = rnd2 := by
  have hd := congrArg String.data h
  simp only [galleryFilename, natToString, String.data_append, data_mk,
    List.append_assoc, List.singleton_append, List.cons_append,
    List.nil_append, List.cons.injEq, true_and] at hd
  obtain ⟨hD, hRE⟩ := digits_dash_split (natToDigits ts1) (natToDigits ts2)
    (natToDigits rnd1 ++ (extname (sanitize o1)).data)
    (natToDigits rnd2 ++ (extname (sanitize o2)).data)
    (natToDigits_isDigit ts1) (natToDigits_isDigit ts2) hd
  have hR := digits_dot_split (natToDigits rnd1) (natToDigits rnd2)
    (extname (sanitize o1)).data (extname (sanitize o2)).data
    (natToDigits_isDigit rnd1) (natToDigits_isDigit rnd2)
    (extname_dotStarts (sanitize o1)) (extname_dotStarts (sanitize o2)) hRE
  exact ⟨natToDigits_inj hD, natToDigits_inj hR⟩

lemma multer_single_success (dir : List String) (f : UploadedFile)
    (ts rnd : Nat) (hf : imageFileFilterErr f = none)
    (hs : f.size ≤ 5 * 1024 * 1024) :
    multerGalleryLoop dir [(f, ts, rnd)] []
      = (writeFile dir (galleryFilename ts rnd f.originalname),
         .ok [(f, galleryFilename ts rnd f.originalname)]) := by
  have hns : ¬ f.size > 5 * 1024 * 1024 := by omega
  simp [multerGalleryLoop, hf, hns]

/-- Claim C3 (amended): a successful single-file gallery upload appends
exactly one `ImageEntry`, carrying the generated
`gallery-<timestamp>-<random><ext>` filename; and two generated
filenames are distinct whenever their timestamp or their random draw
differ — the original filename plays no role beyond the extension, so
repeating an original name still yields distinct stored names.  When
both the millisecond timestamp and the random draw collide, however, the
generated names are equal, so uniqueness over all pairs of uploads does
not hold unconditionally. -/
theorem c3_upload_appends_entry_distinct_names (secret : String)
    (hsec : secret ≠ "") (s : ServerState) (f : UploadedFile)
    (ts rnd : Nat) (now : String) (hf : imageFileFilterErr f = none)
    (hs : f.size ≤ 5 * 1024 * 1024) :
    ((uploadGalleryImages secret s (.vStr secret) [(f, ts, rnd)]
        now).1.gallery.images
      = s.gallery.images
        ++ [⟨galleryFilename ts rnd f.originalname, f.originalname, now,
             f.size, f.mimetype⟩]) ∧
    ∀ ts1 rnd1 : Nat, ∀ o1 : String, ∀ ts2 rnd2 : Nat, ∀ o2 : String,
      ts1 ≠ ts2 ∨ rnd1 ≠ rnd2 →
      galleryFilename ts1 rnd1 o1 ≠ galleryFilename ts2 rnd2 o2 := by
  constructor
  · have hpw : passwordOk (.vStr secret) secret = true := by
      simp [passwordOk, jsTruthy, hsec]
    simp [uploadGalleryImages, hpw,
      multer_single_success s.galleryDir f ts rnd hf hs]
  · intro ts1 rnd1 o1 ts2 rnd2 o2 hne heq
    obtain ⟨hts, hrnd⟩ := galleryFilename_inj ts1 rnd1 o1 ts2 rnd2 o2 heq
    rcases hne with hne | hne <;> exact hne (by omega)

/-- Claim C3 witness. -/
theorem c3_upload_appends_entry_distinct_names_witness :
    ((uploadGalleryImages "pw" (initialState "t0") (.vStr "pw")
        [(⟨"a.jpg", "image/jpeg", 10⟩, 1, 5)] "t1").1.gallery.images
      = (initialState "t0").gallery.images
        ++ [⟨galleryFilename 1 5 "a.jpg", "a.jpg", "t1", 10, "image/jpeg"⟩]) ∧
    ∀ ts1 rnd1 : Nat, ∀ o1 : String, ∀ ts2 rnd2 : Nat, ∀ o2 : String,
      ts1 ≠ ts2 ∨ rnd1 ≠ rnd2 →
      galleryFilename ts1 rnd1 o1 ≠ galleryFilename ts2 rnd2 o2 :=
  c3_upload_appends_entry_distinct_names "pw" (by decide)
    (initialState "t0") ⟨"a.jpg", "image/jpeg", 10⟩ 1 5 "t1"
    (by decide) (by decide)

/-- Claim C3 counterexample: two successful uploads of the same file
that draw the same millisecond timestamp and the same random value are
stored under the same filename — the stored names are not distinct for
every pair of uploads, as the claim asserts. -/
theorem c3_same_suffix_duplicate_counterexample :
    ((uploadGalleryImages "pw"
        (uploadGalleryImages "pw" (initialState "t0") (.vStr "pw")
          [(⟨"a.jpg", "image/jpeg", 10⟩, 1, 5)] "t1").1 (.vStr "pw")
        [(⟨"a.jpg", "image/jpeg", 10⟩, 1, 5)] "t2").1.gallery.images.map
      (fun e => e.filename))
      = ["gallery-1-5.jpg", "gallery-1-5.jpg"] := by rfl

end RhylCarboot

namespace RhylCarboot

lemma uploadHero_success (secret : String) (hsec : secret ≠ "")
    (s : ServerState) (f : UploadedFile) (now : String)
    (hf : imageFileFilterErr f = none) (hs : f.size ≤ 10 * 1024 * 1024) :
    (uploadHeroImage secret s (.vStr secret) (some f) now).1
      = { s with
          heroDir := writeFile s.heroDir (heroFilename f.originalname)
          hero := heroEntryOf f now } := by
  have hns : ¬ f.size > 10 * 1024 * 1024 := by omega
  simp [uploadHeroImage, passwordOk, jsTruthy, hsec, hf, hns, heroEntryOf]

lemma mem_writeFile (dir : List String) (fn a : String) :
    a ∈ writeFile dir fn ↔ a = fn ∨ a ∈ dir := by
  unfold writeFile
  split
  · constructor
    · exact fun h => Or.inr h
    · rintro (rfl | h)
      · assumption
      · exact h
  · simp [or_comm]

lemma applyHeroUploads_dir_mem (secret : String) (hsec : secret ≠ "")
    (ups : List (UploadedFile × String)) :
    ∀ s : ServerState,
    (∀ p ∈ ups, imageFileFilterErr p.1 = none ∧
      p.1.size ≤ 10 * 1024 * 1024) →
    ∀ name, name ∈ (applyHeroUploads secret (.vStr secret) s ups).heroDir ↔
      name ∈ s.heroDir ∨
        name ∈ ups.map (fun p => heroFilename p.1.originalname) := by
  induction ups with
  | nil => intro s _ name; simp [applyHeroUploads]
  | cons p rest ih =>
    intro s hall name
    obtain ⟨hf, hs⟩ := hall p (by simp)
    have hstep : applyHeroUploads secret (.vStr secret) s (p :: rest)
        = applyHeroUploads secret (.vStr secret)
            (uploadHeroImage secret s (.vStr secret) (some p.1) p.2).1
            rest := by
      simp [applyHeroUploads]
    rw [hstep, uploadHero_success secret hsec s p.1 p.2 hf hs]
    rw [ih _ (fun q hq => hall q (by simp [hq])) name]
    simp [mem_writeFile, or_assoc]
    tauto

lemma applyHeroUploads_append (secret : String) (password : JSValue)
    (s : ServerState) (l1 l2 : List (UploadedFile × String)) :
    applyHeroUploads secret password s (l1 ++ l2)
      = applyHeroUploads secret password
          (applyHeroUploads secret password s l1) l2 := by
  simp [applyHeroUploads, List.foldl_append]

/-- Claim C2 (amended): after any nonempty sequence of successful
UploadHero calls starting from an empty hero directory, the hero record
contains exactly the entry of the most recent upload — no accumulation —
and the files in the hero directory are exactly the fixed-stem names
`hero-background<ext>` of the uploaded files: one per distinct
extension.  Uploads sharing an extension overwrite the same file, so the
directory holds exactly one file when every upload uses one extension,
but uploads with differing extensions each leave their own file. -/
theorem c2_hero_single_record_fixed_stem_files (secret : String)
    (hsec : secret ≠ "") (s : ServerState) (hdir : s.heroDir = [])
    (ups pre : List (UploadedFile × String)) (f : UploadedFile)
    (t : String) (hlast : ups = pre ++ [(f, t)])
    (hall : ∀ p ∈ ups, imageFileFilterErr p.1 = none ∧
      p.1.size ≤ 10 * 1024 * 1024) :
    (applyHeroUploads secret (.vStr secret) s ups).hero = heroEntryOf f t ∧
    ∀ name, name ∈ (applyHeroUploads secret (.vStr secret) s ups).heroDir ↔
      name ∈ ups.map (fun p => heroFilename p.1.originalname) := by
  constructor
  · subst hlast
    rw [applyHeroUploads_append]
    obtain ⟨hf, hs⟩ := hall (f, t) (by simp)
    have hone : applyHeroUploads secret (.vStr secret)
        (applyHeroUploads secret (.vStr secret) s pre) [(f, t)]
        = (uploadHeroImage secret
            (applyHeroUploads secret (.vStr secret) s pre)
            (.vStr secret) (some f) t).1 := by
      simp [applyHeroUploads]
    rw [hone, uploadHero_success secret hsec _ f t hf hs]
  · intro name
    rw [applyHeroUploads_dir_mem secret hsec ups s hall name, hdir]
    simp

/-- Claim C2 witness: two uploads with the same extension — one record
entry, one file on disk. -/
theorem c2_hero_single_record_fixed_stem_files_witness :
    (applyHeroUploads "pw" (.vStr "pw") (initialState "t0")
        [(⟨"a.jpg", "image/jpeg", 10⟩, "t1"),
         (⟨"b.jpg", "image/jpeg", 12⟩, "t2")]).hero
      = heroEntryOf ⟨"b.jpg", "image/jpeg", 12⟩ "t2" ∧
    ∀ name, name ∈ (applyHeroUploads "pw" (.vStr "pw") (initialState "t0")
        [(⟨"a.jpg", "image/jpeg", 10⟩, "t1"),
         (⟨"b.jpg", "image/jpeg", 12⟩, "t2")]).heroDir ↔
      name ∈ ([(⟨"a.jpg", "image/jpeg", 10⟩, "t1"),
               (⟨"b.jpg", "image/jpeg", 12⟩, "t2")] :
          List (UploadedFile × String)).map
        (fun p => heroFilename p.1.originalname) :=
  c2_hero_single_record_fixed_stem_files "pw" (by decide)
    (initialState "t0") rfl
    [(⟨"a.jpg", "image/jpeg", 10⟩, "t1"), (⟨"b.jpg", "image/jpeg", 12⟩, "t2")]
    [(⟨"a.jpg", "image/jpeg", 10⟩, "t1")] ⟨"b.jpg", "image/jpeg", 12⟩ "t2"
    rfl (by decide)

/-- Claim C2 counterexample: two successful hero uploads with differing
extensions (`a.jpg` then `a.png`) leave two files in the hero upload
directory, not exactly one as the claim asserts. -/
theorem c2_two_extensions_two_files_counterexample :
    (applyHeroUploads "pw" (.vStr "pw") (initialState "t0")
        [(⟨"a.jpg", "image/jpeg", 10⟩, "t1"),
         (⟨"a.png", "image/png", 10⟩, "t2")]).heroDir
      = ["hero-background.png", "hero-background.jpg"] ∧
    (applyHeroUploads "pw" (.vStr "pw") (initialState "t0")
        [(⟨"a.jpg", "image/jpeg", 10⟩, "t1"),
         (⟨"a.png", "image/png", 10⟩, "t2")]).heroDir.length = 2 :=
  ⟨rfl, rfl⟩

end RhylCarboot
